import Mathlib

/-!
Verification development for the FluidSimulator repository.

The embedding models the two source files:
  * `src/simulation/fluid_engine.rs` — `FluidSimulator` with `new`, `step`
    and `to_seed`;
  * `wasm/src/lib.rs` — `SimulationEngine` with `new`, `step` and
    `get_particle_positions`.

Scalars (`f32` in the source) are modelled as rationals; `Vec<T>` as
`List T`.  The struct types (`Particle`, `SimulationConfig`,
`PhysicsParams`, `SimulationObject`) and the four pipeline stage bodies
(`update_forces`, `compute_sph_forces`, `handle_collisions`, `integrate`)
are declared or called in the source but their definitions do not appear
in the repository snapshot; they are modelled from the specification and
are flagged as such in their doc comments.
-/

namespace FluidSim

/-- Modelled from the spec: a 3-component vector of scalars (the source
uses `nalgebra` vectors with fields `.x`, `.y`, `.z`). -/
structure Vec3 where
  x : ℚ
  y : ℚ
  z : ℚ
deriving DecidableEq, Inhabited

/-- The zero vector. -/
def Vec3.zero : Vec3 := ⟨0, 0, 0⟩

/-- Componentwise addition. -/
def Vec3.add (a b : Vec3) : Vec3 := ⟨a.x + b.x, a.y + b.y, a.z + b.z⟩

/-- Componentwise subtraction. -/
def Vec3.sub (a b : Vec3) : Vec3 := ⟨a.x - b.x, a.y - b.y, a.z - b.z⟩

/-- Scalar multiplication. -/
def Vec3.smul (c : ℚ) (a : Vec3) : Vec3 := ⟨c * a.x, c * a.y, c * a.z⟩

/-- Squared Euclidean norm of the difference of two vectors. -/
def Vec3.distSq (a b : Vec3) : ℚ :=
  (a.x - b.x) ^ 2 + (a.y - b.y) ^ 2 + (a.z - b.z) ^ 2

/-- Modelled from the spec (§3, the `Particle` type is not defined under
`src/`): position (3 scalars), velocity (3 scalars), density, pressure,
mass, and the transient accumulated force. -/
structure Particle where
  position : Vec3
  velocity : Vec3
  density : ℚ
  pressure : ℚ
  mass : ℚ
  force : Vec3
deriving DecidableEq, Inhabited

/-- Modelled from the spec (§3, the `SimulationConfig` type is not defined
under `src/`): particle_count, smoothing_radius, rest_density,
gas_stiffness, viscosity_coefficient, gravity vector. -/
structure SimulationConfig where
  particle_count : ℕ
  smoothing_radius : ℚ
  rest_density : ℚ
  gas_stiffness : ℚ
  viscosity_coefficient : ℚ
  gravity : Vec3
deriving DecidableEq

/-- Modelled from the spec (§3, the `PhysicsParams` type is not defined
under `src/`): tunable coefficients separate from the structural config. -/
structure PhysicsParams where
  stiffness : ℚ
  viscosity : ℚ
  restitution : ℚ
  friction : ℚ
deriving DecidableEq

/-- Modelled from the spec: `PhysicsParams::default()` as called by
`FluidSimulator::new`; the spec (§3) says the params may default
independently of the user config. -/
def PhysicsParams.default : PhysicsParams :=
  { stiffness := 1, viscosity := 1, restitution := 1 / 2, friction := 1 / 10 }

/-- Modelled from the spec (§3/§4.4, the `SimulationObject` type is not
defined under `src/`): static collision geometry with a geometric test;
a half-space floor plane `y ≥ level` suffices for the claims here. -/
inductive SimulationObject where
  | plane (level : ℚ)
deriving DecidableEq

/-- The simulator state, from `src/simulation/fluid_engine.rs` lines 3-8:
particles, config, physics_params, objects. -/
structure FluidSimulator where
  particles : List Particle
  config : SimulationConfig
  physics_params : PhysicsParams
  objects : List SimulationObject
deriving DecidableEq

/-- `FluidSimulator::new` from `src/simulation/fluid_engine.rs` lines
11-18.  `Vec::with_capacity(config.particle_count)` allocates capacity but
creates an empty vector, so `particles` is the empty list; `objects` is
`Vec::new()`; `physics_params` is `PhysicsParams::default()`.  The
function is total (returns `Self`, no error path) and performs no
validation of the config. -/
def FluidSimulator.new (config : SimulationConfig) : FluidSimulator :=
  { particles := []
    config := config
    physics_params := PhysicsParams.default
    objects := [] }

/-- `FluidSimulator::to_seed` from `src/simulation/fluid_engine.rs` lines
34-37.  The body is `unimplemented!()`, which panics unconditionally;
a panicking call is modelled as `none`, a returned seed string would be
`some`. -/
def FluidSimulator.to_seed (_ : FluidSimulator) : Option String := none

/-- `SimulationEngine` from `wasm/src/lib.rs` lines 3-6: a wrapper owning
a `FluidSimulator`. -/
structure SimulationEngine where
  simulator : FluidSimulator
deriving DecidableEq

/-- `SimulationEngine::new` from `wasm/src/lib.rs` lines 11-16, taken at
the point where the JS config value has already been deserialized into a
`SimulationConfig` (the `serde_wasm_bindgen::from_value` step is host
interop; per spec §9 no behavior lives there).  Given a decoded config it
unconditionally returns `Ok`, wrapping `FluidSimulator::new(config)`:
there is no validation of `particle_count` or `smoothing_radius`. -/
def SimulationEngine.new (config : SimulationConfig) :
    Except String SimulationEngine :=
  .ok { simulator := FluidSimulator.new config }

/-- `SimulationEngine::get_particle_positions` from `wasm/src/lib.rs`
lines 22-28: flat-map each particle to its three position coordinates, in
particle order. -/
def SimulationEngine.get_particle_positions (e : SimulationEngine) :
    List ℚ :=
  e.simulator.particles.flatMap
    (fun p => [p.position.x, p.position.y, p.position.z])

/-- Modelled from the spec: the poly6-style smoothing kernel (glossary,
§4.3), as a function of the squared distance; it decays to zero at the
smoothing radius and is exactly zero outside it.  Normalisation constants
are omitted (the spec names poly6 only as an example kernel). -/
def kernelPoly6 (h rsq : ℚ) : ℚ :=
  if rsq ≤ h ^ 2 then (h ^ 2 - rsq) ^ 3 else 0

/-- Modelled from the spec (§4.3 pass 1): density of a particle is the
mass-weighted kernel sum over all particles within the smoothing radius,
including the self contribution (the particle itself appears in the list
at squared distance zero). -/
def densityAt (cfg : SimulationConfig) (ps : List Particle)
    (p : Particle) : ℚ :=
  (ps.map (fun q =>
    q.mass * kernelPoly6 cfg.smoothing_radius
      (Vec3.distSq p.position q.position))).sum

/-- Modelled from the spec (§4.3 pass 1): the density/pressure pass.
Each particle receives the kernel-summed density, and a pressure from the
equation of state `gas_stiffness * (density - rest_density)` clamped to
be nonnegative. -/
def densityPressurePass (cfg : SimulationConfig) (ps : List Particle) :
    List Particle :=
  ps.map (fun p =>
    let d := densityAt cfg ps p
    { p with
      density := d
      pressure := max 0 (cfg.gas_stiffness * (d - cfg.rest_density)) })

/-- Modelled from the spec (§4.3 pass 2): the pairwise force contribution
of particle `q` on particle `p` — a symmetric pressure-gradient term
directed along the separation vector plus a viscosity term proportional
to the velocity difference, both zero outside the smoothing radius.  For
`q = p` both the separation vector and the velocity difference vanish, so
the self term contributes the zero vector. -/
def pairForce (cfg : SimulationConfig) (p q : Particle) : Vec3 :=
  let rsq := Vec3.distSq p.position q.position
  if rsq ≤ cfg.smoothing_radius ^ 2 then
    Vec3.add
      (Vec3.smul
        (-(q.mass * (p.pressure + q.pressure) / (2 * q.density)) *
          (cfg.smoothing_radius ^ 2 - rsq))
        (p.position.sub q.position))
      (Vec3.smul
        (cfg.viscosity_coefficient * q.mass *
          (cfg.smoothing_radius ^ 2 - rsq) / q.density)
        (q.velocity.sub p.velocity))
  else Vec3.zero

/-- Modelled from the spec: the body of `update_forces` is absent from
`src/`.  Per the code comment at `fluid_engine.rs` line 21 this stage
updates external forces; per spec §4.3/§9 the transient force accumulator
is reset each step and gravity contributes `mass * g`. -/
def FluidSimulator.update_forces (s : FluidSimulator) : FluidSimulator :=
  { s with particles := s.particles.map (fun p =>
      { p with force := Vec3.smul p.mass s.config.gravity }) }

/-- Modelled from the spec: the body of `compute_sph_forces` is absent
from `src/`.  Per the code comment at `fluid_engine.rs` line 24 this
stage computes the particle-particle interaction; per spec §4.3 it is a
two-pass algorithm: the density/pressure pass, then the force pass that
accumulates pressure and viscosity forces onto each particle (neighbor
search over all particles within the smoothing radius; the spatial index
of spec §4.2 is a cost optimisation returning exactly those particles). -/
def FluidSimulator.compute_sph_forces (s : FluidSimulator) :
    FluidSimulator :=
  let ps := densityPressurePass s.config s.particles
  { s with particles := ps.map (fun p =>
      { p with
        force := ((ps.map (pairForce s.config p)).foldl Vec3.add p.force) }) }

/-- Modelled from the spec (§4.4): resolve one particle against one
object.  For the floor plane, a penetrating particle is displaced to the
surface along the contact normal, its normal velocity reflected scaled by
the restitution coefficient and its tangential velocity damped by the
friction coefficient. -/
def resolveObject (params : PhysicsParams) (p : Particle)
    (o : SimulationObject) : Particle :=
  match o with
  | .plane level =>
    if p.position.y < level then
      { p with
        position := ⟨p.position.x, level, p.position.z⟩
        velocity := ⟨p.velocity.x * (1 - params.friction),
                     -params.restitution * p.velocity.y,
                     p.velocity.z * (1 - params.friction)⟩ }
    else p

/-- Modelled from the spec: the body of `handle_collisions` is absent
from `src/`.  Per the code comment at `fluid_engine.rs` line 27 this
stage is object collision detection; per spec §4.4 each particle is
resolved against each object sequentially in object list order within a
single pass. -/
def FluidSimulator.handle_collisions (s : FluidSimulator) :
    FluidSimulator :=
  { s with particles := s.particles.map (fun p =>
      s.objects.foldl (resolveObject s.physics_params) p) }

/-- Modelled from the spec: the body of `integrate` is absent from
`src/`.  Per spec §4.5 it is semi-implicit (symplectic) Euler: velocity
is advanced first by `acceleration * dt` with `acceleration = force /
mass`, then position by the new velocity times `dt`; no substepping or
clamping of `dt`. -/
def FluidSimulator.integrate (s : FluidSimulator) (dt : ℚ) :
    FluidSimulator :=
  { s with particles := s.particles.map (fun p =>
      let v := p.velocity.add (Vec3.smul (dt / p.mass) p.force)
      { p with velocity := v, position := p.position.add (Vec3.smul dt v) }) }

/-- `FluidSimulator::step` from `src/simulation/fluid_engine.rs` lines
20-32: the four stage calls in straight-line order — `update_forces`,
`compute_sph_forces`, `handle_collisions`, `integrate(dt)`.  The Rust
function returns unit and has no error path: `dt` is passed through to
the integrator with no validation, and every stage runs unconditionally
on every call. -/
def FluidSimulator.step (s : FluidSimulator) (dt : ℚ) : FluidSimulator :=
  (((s.update_forces).compute_sph_forces).handle_collisions).integrate dt

/-- `SimulationEngine::step` from `wasm/src/lib.rs` lines 18-20: forwards
to `FluidSimulator::step` with no validation and no error path. -/
def SimulationEngine.step (e : SimulationEngine) (dt : ℚ) :
    SimulationEngine :=
  { simulator := e.simulator.step dt }

/-- Iterated stepping: fold `step` over a list of `dt` values. -/
def FluidSimulator.runSteps (s : FluidSimulator) :
    List ℚ → FluidSimulator
  | [] => s
  | dt :: rest => (s.step dt).runSteps rest

/-- The vocabulary of pipeline stages named by the source comments and by
the spec (§2 control flow). -/
inductive PipelineStage where
  | spatialIndexRebuild
  | externalForces
  | densityPass
  | pressureViscosityPass
  | collisionResolver
  | integratorStage
deriving DecidableEq

/-- The stage sequence executed by `FluidSimulator::step`, read off from
its body at `fluid_engine.rs` lines 20-32: `update_forces` (the code
comment names it the external-force update), then `compute_sph_forces`
(the density pass then the pressure/viscosity pass, per spec §4.3), then
`handle_collisions`, then `integrate`.  The sequence is a straight line
with no branches, so it is identical on every call. -/
def stepPipeline : List PipelineStage :=
  [.externalForces, .densityPass, .pressureViscosityPass,
   .collisionResolver, .integratorStage]

/-- The per-step stage ordering claimed by the spec (§2): spatial index
rebuild first, then the force model (density pass, then the
pressure/viscosity pass using the index), then the collision resolver,
then the integrator.  This definition follows the words of the spec, for
comparison against `stepPipeline`, which follows the source. -/
def specClaimedPipeline : List PipelineStage :=
  [.spatialIndexRebuild, .densityPass, .pressureViscosityPass,
   .collisionResolver, .integratorStage]

/-- A valid config with one particle, used as a concrete test input. -/
def cfgOne : SimulationConfig :=
  { particle_count := 1, smoothing_radius := 1, rest_density := 1,
    gas_stiffness := 1, viscosity_coefficient := 1, gravity := Vec3.zero }

/-- An invalid config per the spec: zero particles. -/
def cfgZeroCount : SimulationConfig := { cfgOne with particle_count := 0 }

/-- An invalid config per the spec: negative smoothing radius. -/
def cfgNegRadius : SimulationConfig := { cfgOne with smoothing_radius := -1 }

/-- A particle at the origin moving along x with unit mass. -/
def pMoving : Particle :=
  { position := Vec3.zero, velocity := ⟨1, 0, 0⟩, density := 1,
    pressure := 0, mass := 1, force := Vec3.zero }

/-- A concrete simulator holding one moving particle, zero gravity, no
objects. -/
def simMoving : FluidSimulator :=
  { particles := [pMoving], config := cfgOne,
    physics_params := PhysicsParams.default, objects := [] }

/-- A particle written out with the same field values as `pMoving`, for
the two-run determinism statement. -/
def pMovingCopy : Particle :=
  { position := Vec3.zero, velocity := ⟨1, 0, 0⟩, density := 1,
    pressure := 0, mass := 1, force := Vec3.zero }

/-- A config written out with the same field values as `cfgOne`. -/
def cfgOneCopy : SimulationConfig :=
  { particle_count := 1, smoothing_radius := 1, rest_density := 1,
    gas_stiffness := 1, viscosity_coefficient := 1, gravity := Vec3.zero }

/-- A second simulator with the same field values as `simMoving`, for the
two-run determinism statement. -/
def simMovingCopy : FluidSimulator :=
  { particles := [pMovingCopy], config := cfgOneCopy,
    physics_params := PhysicsParams.default, objects := [] }

/-- The first particle of `simMoving` after the SPH force stage. -/
def pAfterSph : Particle :=
  ((FluidSimulator.compute_sph_forces simMoving).particles).headI

/-- Any step preserves the number of particles: every pipeline stage maps
over the particle list. -/
theorem step_particle_count (s : FluidSimulator) (dt : ℚ) :
    (s.step dt).particles.length = s.particles.length := by
  simp [FluidSimulator.step, FluidSimulator.update_forces,
    FluidSimulator.compute_sph_forces, FluidSimulator.handle_collisions,
    FluidSimulator.integrate, densityPressurePass]

/-- Claim C1: the spec says the positions readback immediately after
construction has length `3 * particle_count`; the code creates an empty
particle vector (capacity only), so at the valid config with
`particle_count = 1` the readback is empty — length 0, not 3. -/
theorem positions_after_new_empty :
    cfgOne.particle_count = 1 ∧
    (SimulationEngine.mk
      (FluidSimulator.new cfgOne)).get_particle_positions.length = 0 ∧
    3 * cfgOne.particle_count = 3 := by
  decide

/-- Claim C2: the spec says construction fails for zero `particle_count`
or non-positive `smoothing_radius`; the code performs no validation and
constructs a simulator for both invalid configs. -/
theorem new_accepts_invalid_configs :
    cfgZeroCount.particle_count = 0 ∧
    cfgNegRadius.smoothing_radius ≤ 0 ∧
    SimulationEngine.new cfgZeroCount =
      Except.ok ⟨FluidSimulator.new cfgZeroCount⟩ ∧
    SimulationEngine.new cfgNegRadius =
      Except.ok ⟨FluidSimulator.new cfgNegRadius⟩ := by
  refine ⟨rfl, by decide, rfl, rfl⟩

/-- Claim C3: the spec says `step(dt)` with non-positive dt reports an
error and leaves state unchanged; the code has no error path and no
validation: at `dt = -1` the full pipeline runs and moves the particle
from the origin to `(-1, 0, 0)`. -/
theorem step_negative_dt_mutates_state :
    (FluidSimulator.step simMoving (-1)).particles ≠ simMoving.particles ∧
    ((FluidSimulator.step simMoving (-1)).particles.map
      Particle.position) = [⟨-1, 0, 0⟩] := by
  have hstep : ((FluidSimulator.step simMoving (-1)).particles.map
      Particle.position) = [(⟨-1, 0, 0⟩ : Vec3)] := by
    norm_num [FluidSimulator.step, FluidSimulator.update_forces,
      FluidSimulator.compute_sph_forces, FluidSimulator.handle_collisions,
      FluidSimulator.integrate, densityPressurePass, densityAt, pairForce,
      kernelPoly6, simMoving, pMoving, cfgOne, Vec3.zero, Vec3.add,
      Vec3.sub, Vec3.smul, Vec3.distSq]
  refine ⟨fun h => ?_, hstep⟩
  rw [h] at hstep
  norm_num [simMoving, pMoving, Vec3.zero, Vec3.mk.injEq] at hstep

/-- Claim C4: the spec requires `from_seed(sim.to_seed())` round-trip
fidelity; `to_seed` is `unimplemented!()` (it panics, modelled as
`none`), so no seed is ever produced and no round trip exists; evaluated
here on a freshly constructed simulator. -/
theorem to_seed_of_new_is_none :
    (FluidSimulator.new cfgOne).to_seed = none := rfl

/-- Claim C5 (counterexample): the stage sequence executed by `step` is
not the one claimed by the spec — the first stage is the external-force
update, and no spatial-index-rebuild stage exists in the pipeline. -/
theorem step_pipeline_ne_spec_pipeline :
    stepPipeline ≠ specClaimedPipeline ∧
    PipelineStage.spatialIndexRebuild ∉ stepPipeline := by
  decide

/-- Claim C5 (amended): every call to `step(dt)` executes exactly
`update_forces` (external forces), then `compute_sph_forces` (density
pass, then pressure/viscosity pass), then `handle_collisions`, then
`integrate`, in that fixed order on every step. -/
theorem step_stage_ordering (s : FluidSimulator) (dt : ℚ) :
    s.step dt =
      (((s.update_forces).compute_sph_forces).handle_collisions).integrate
        dt ∧
    stepPipeline =
      [PipelineStage.externalForces, PipelineStage.densityPass,
       PipelineStage.pressureViscosityPass, PipelineStage.collisionResolver,
       PipelineStage.integratorStage] :=
  ⟨rfl, rfl⟩

/-- Claim C6: the spec says the particle count is fixed at construction
by `config.particle_count`; the code constructs zero particles for a
config asking for one, and stepping keeps the count at zero. -/
theorem particle_count_not_config_count :
    cfgOne.particle_count = 1 ∧
    (FluidSimulator.new cfgOne).particles.length = 0 ∧
    ((FluidSimulator.new cfgOne).step (1 / 100)).particles.length = 0 := by
  decide

/-- Claim C7: stepping is deterministic — two simulators agreeing on all
four state fields and stepped with the same dt sequence hold identical
particle states afterwards (the pipeline is a pure function of the state,
the config and dt; no randomness after construction). -/
theorem step_deterministic (a b : FluidSimulator) (dts : List ℚ)
    (hp : a.particles = b.particles) (hc : a.config = b.config)
    (hpar : a.physics_params = b.physics_params)
    (ho : a.objects = b.objects) :
    (a.runSteps dts).particles = (b.runSteps dts).particles := by
  have hab : a = b := by cases a; cases b; simp_all
  rw [hab]

/-- Claim C7 witness: two concretely equal one-particle simulators agree
after two steps. -/
theorem step_deterministic_witness :
    (simMoving.runSteps [1 / 100, 1 / 50]).particles =
      (simMovingCopy.runSteps [1 / 100, 1 / 50]).particles :=
  step_deterministic simMoving simMovingCopy [1 / 100, 1 / 50]
    rfl rfl rfl rfl

/-- Claim C8: after the SPH stage, every particle carries the
equation-of-state pressure `gas_stiffness * (density - rest_density)`
clamped to be nonnegative, so no particle has negative pressure. -/
theorem sph_pressure_clamped (s : FluidSimulator) (p : Particle)
    (hp : p ∈ (s.compute_sph_forces).particles) :
    p.pressure = max 0 (s.config.gas_stiffness *
      (p.density - s.config.rest_density)) ∧ 0 ≤ p.pressure := by
  simp only [FluidSimulator.compute_sph_forces, densityPressurePass,
    List.map_map, List.mem_map, Function.comp] at hp
  obtain ⟨q, hq, rfl⟩ := hp
  exact ⟨rfl, le_max_left _ _⟩

/-- Claim C8 witness: the single particle of `simMoving` after the SPH
stage satisfies the clamped equation of state. -/
theorem sph_pressure_clamped_witness :
    pAfterSph.pressure = max 0 (simMoving.config.gas_stiffness *
      (pAfterSph.density - simMoving.config.rest_density)) ∧
    0 ≤ pAfterSph.pressure :=
  sph_pressure_clamped simMoving pAfterSph
    (by exact List.mem_singleton_self pAfterSph)

/-- Claim C9: `to_seed` is `unimplemented!()` — it panics on every
simulator state and never returns a seed string (a panicking call is
modelled as `none`). -/
theorem to_seed_always_panics :
    ∀ s : FluidSimulator, s.to_seed = none :=
  fun _ => rfl

/-- Claim C10: for every config, `new` yields an empty objects list,
default physics parameters independent of the config, and an empty
particle vector. -/
theorem new_initial_fields (config : SimulationConfig) :
    (FluidSimulator.new config).objects = [] ∧
    (FluidSimulator.new config).physics_params = PhysicsParams.default ∧
    (FluidSimulator.new config).particles = [] :=
  ⟨rfl, rfl, rfl⟩

end FluidSim
